import Mathlib

/-!
Verification of `scripts/compute_deepstate_summary.py`, the geometry-diffing
and area-accounting core of the ukraine-war-map repository.

Modelling choices (shallow embedding):

* A shapely geometry is modelled by its point-set semantics: `Region` is a set
  of (longitude, latitude) rational pairs.  `unary_union` is point-set union and
  `difference` is set difference, which is exactly the semantics of the shapely
  operations used by the script.
* The external collaborators (the GeoJSON parser `shape`, the geodesic area
  routine `geod.polygon_area_perimeter`, the shapely `centroid` and `is_empty`)
  are modelled as parameters: the logic of the script itself is proved for every
  behaviour of those collaborators.
* Python floats are modelled by rationals; `round` is modelled by round-half-to-even
  (the documented rounding mode of Python).
* For the inner `geom_area_m2` recursion the polygon *structure* matters
  (exterior ring, hole rings, multi-polygon parts), so a second, structural
  geometry type `PyGeom` embeds exactly the shape of the data that function
  walks, with the geodesic ring-area primitive left abstract.
-/

namespace DeepState

/-- A point: (longitude, latitude). -/
abbrev Pt : Type := ℚ × ℚ

/-- Point-set semantics of a shapely geometry. -/
abbrev Region : Type := Set Pt

/-- A raw GeoJSON geometry value, as seen by `shape(g)` inside the
`try`/`except` of the script: it either parses to a usable geometry or the
parser raises and the feature is skipped. -/
inductive RawGeom where
  | ok (g : Region)
  | malformed
deriving Inhabited

/-- Observable behaviour of `shapely.geometry.shape` on a raw geometry:
`some` on success, `none` when the constructor raises. -/
def shape : RawGeom → Option Region
  | .ok g => some g
  | .malformed => none

/-- One entry of `geojson_obj["features"]`; `geometry` is `none` when the
`"geometry"` key is absent or its value is falsy (the `if not g: continue`
branch of the script). -/
structure Feature where
  geometry : Option RawGeom

/-- The feature loop shared by `area_km2_of_geojson` and `merged_geom`
(lines 27-34 and 67-74 of the script): walk the features in order, skip a
feature whose geometry is absent or fails to parse, collect the rest. -/
def collectGeoms : List Feature → List Region
  | [] => []
  | f :: rest =>
    match f.geometry with
    | none => collectGeoms rest
    | some raw =>
      match shape raw with
      | none => collectGeoms rest
      | some g => g :: collectGeoms rest

/-- Model of `shapely.ops.unary_union`: the point-set union of a list of geometries. -/
def unary_union (gs : List Region) : Region :=
  { p | ∃ g ∈ gs, p ∈ g }

/-- Model of `area_km2_of_geojson` (lines 24-61): collect the valid geometries,
return `0.0` if there are none, otherwise the geodesic area of their union
divided by 1 000 000.  The geodesic area routine (the `geom_area_m2` call on
the merged shapely object) is the parameter `μ`, in square meters. -/
def area_km2_of_geojson (μ : Region → ℚ) (feats : List Feature) : ℚ :=
  let geoms := collectGeoms feats
  if geoms.isEmpty then 0 else μ (unary_union geoms) / 1000000

/-- Model of `merged_geom` (lines 64-77): collect the valid geometries, return `None`
(here `none`) if there are none, otherwise their union. -/
def merged_geom (feats : List Feature) : Option Region :=
  let geoms := collectGeoms feats
  if geoms.isEmpty then none else some (unary_union geoms)

/-- The gained region of `centroid_lonlat_of_change` (line 99):
`today_geom.difference(prev_geom)`. -/
def gained (today_geom prev_geom : Region) : Region :=
  today_geom \ prev_geom

/-- The lost region of `centroid_lonlat_of_change` (line 100):
`prev_geom.difference(today_geom)`. -/
def lost (today_geom prev_geom : Region) : Region :=
  prev_geom \ today_geom

/-- Model of `side_from_delta` (lines 80-85), with the literal Hungarian labels of the
script. -/
def side_from_delta (delta : ℚ) : String :=
  if delta > 0 then "orosz területszerzés"
  else if delta < 0 then "ukrán visszafoglalás"
  else "nincs érdemi változás"

/-- Model of the Python `round` to an integer: round half to even. -/
def py_round_int (x : ℚ) : ℤ :=
  let f : ℤ := ⌊x⌋
  let r : ℚ := x - f
  if r < 1 / 2 then f
  else if r > 1 / 2 then f + 1
  else if f % 2 = 0 then f else f + 1

/-- Model of the Python `round(x, n)`: round to `n` decimal places, half to even. -/
def py_round (x : ℚ) (n : ℕ) : ℚ :=
  (py_round_int (x * 10 ^ n) : ℚ) / 10 ^ n

/-- Model of `fmt` (lines 88-92): round the delta to 1 decimal when `|delta| >= 100`,
else to 2 decimals; the threshold tests the unrounded delta. -/
def fmt (delta : ℚ) : ℚ :=
  if |delta| ≥ 100 then py_round delta 1 else py_round delta 2

/-- The record built by `centroid_lonlat_of_change` (lines 110-113). -/
structure ChangeRec where
  gained_centroid : Option Pt
  lost_centroid : Option Pt
deriving DecidableEq

/-- Model of `safe_centroid` (lines 102-108).  The shapely collaborators are
parameters: `ie` models `g.is_empty`, and `ce` models taking `g.centroid`
where a `none` result stands for the `not c or c.is_empty` branch.  On
success the centroid coordinates are rounded to 5 decimal places. -/
def safe_centroid (ie : Region → Bool) (ce : Region → Option Pt)
    (g : Option Region) : Option Pt :=
  match g with
  | none => none
  | some s =>
    if ie s then none
    else
      match ce s with
      | none => none
      | some c => some (py_round c.1 5, py_round c.2 5)

/-- Model of `centroid_lonlat_of_change` (lines 95-113): if either input geometry is
`None`, return `None`; otherwise build the record of gained/lost centroids. -/
def centroid_lonlat_of_change (ie : Region → Bool) (ce : Region → Option Pt)
    (today_geom prev_geom : Option Region) : Option ChangeRec :=
  match today_geom, prev_geom with
  | some t, some p =>
    some { gained_centroid := safe_centroid ie ce (some (gained t p)),
           lost_centroid := safe_centroid ie ce (some (lost t p)) }
  | _, _ => none

/-- The all-null fallback record of `main` (line 167):
`{"gained_centroid": None, "lost_centroid": None}`. -/
def null_change : ChangeRec :=
  { gained_centroid := none, lost_centroid := none }

/-- The change record `main` actually emits (line 167):
`centroid_lonlat_of_change(g_latest, g_prev) or {all-null}`. -/
def change_record (ie : Region → Bool) (ce : Region → Option Pt)
    (g_latest g_prev : Option Region) : ChangeRec :=
  (centroid_lonlat_of_change ie ce g_latest g_prev).getD null_change

/-- One entry of `deepstate_dates.json`. -/
structure DateEntry where
  date : String
  raw : String

/-- The index bookkeeping of `main` (lines 121-127): reject a dates list of
fewer than two entries, otherwise return `(i_latest, i_prev, i_week)` with
`i_week = max(0, i_latest - 7)`, computed over the integers as Python does. -/
def main_indices (dates : List DateEntry) : Except String (ℤ × ℤ × ℤ) :=
  if dates.length < 2 then .error "deepstate_dates.json too short"
  else
    let i_latest : ℤ := (dates.length : ℤ) - 1
    let i_prev : ℤ := (dates.length : ℤ) - 2
    let i_week : ℤ := max 0 (i_latest - 7)
    .ok (i_latest, i_prev, i_week)

/-! ## Structural model for the inner geodesic-area recursion -/

/-- A linear ring: the coordinate list handed to
`geod.polygon_area_perimeter`. -/
abbrev Ring : Type := List Pt

/-- The shapely geometry structure that `geom_area_m2` (lines 41-58) walks:
an empty geometry, a polygon with exterior and interior rings, a
multi-polygon of such polygons, or any other geometry type (lines etc.). -/
inductive PyGeom where
  | empty
  | polygon (exterior : Ring) (interiors : List Ring)
  | multiPolygon (polys : List (Ring × List Ring))
  | other

/-- The `Polygon` branch of `geom_area_m2` (lines 45-54): take the absolute
signed geodesic area of the exterior ring, subtract the absolute area of each
hole in a loop, clamp the result to be non-negative.  `A` is the abstract
signed ring area returned by `geod.polygon_area_perimeter`, in square
meters. -/
def polygon_area_m2 (A : Ring → ℚ) (exterior : Ring) (interiors : List Ring) : ℚ :=
  max 0 (interiors.foldl (fun area interior => area - |A interior|) |A exterior|)

/-- Model of `geom_area_m2` (lines 41-58): 0 for an empty geometry, the clamped
hole-subtracted area for a polygon, the sum over parts for a multi-polygon,
and 0 for any other geometry type. -/
def geom_area_m2 (A : Ring → ℚ) : PyGeom → ℚ
  | .empty => 0
  | .polygon exterior interiors => polygon_area_m2 A exterior interiors
  | .multiPolygon polys => (polys.map (fun p => polygon_area_m2 A p.1 p.2)).sum
  | .other => 0

/-! ## Helper lemmas -/

/-- The feature loop collects exactly the geometries that are present and
parse: it is the `filterMap` of `shape` over the geometry fields. -/
theorem collectGeoms_eq_filterMap (feats : List Feature) :
    collectGeoms feats = feats.filterMap (fun f => f.geometry.bind shape) := by
  induction feats with
  | nil => rfl
  | cons f rest ih =>
    cases hg : f.geometry with
    | none => simp [collectGeoms, List.filterMap_cons, hg, ih]
    | some raw =>
      cases hs : shape raw with
      | none => simp [collectGeoms, List.filterMap_cons, hg, hs, ih]
      | some g => simp [collectGeoms, List.filterMap_cons, hg, hs, ih]

/-- Union of a permuted list of geometries is the same point set. -/
theorem unary_union_perm {l1 l2 : List Region} (h : l1.Perm l2) :
    unary_union l1 = unary_union l2 := by
  ext x
  simp only [unary_union, Set.mem_setOf_eq]
  constructor
  · rintro ⟨g, hg, hx⟩
    exact ⟨g, h.mem_iff.mp hg, hx⟩
  · rintro ⟨g, hg, hx⟩
    exact ⟨g, h.mem_iff.mpr hg, hx⟩

/-- A feature collection with no valid geometry merges to `none` and has
area `0`, and the change record built from it is the all-null record. -/
theorem no_valid_geoms_results (μ : Region → ℚ) (ie : Region → Bool)
    (ce : Region → Option Pt) (feats : List Feature) (other : Option Region)
    (h : collectGeoms feats = []) :
    area_km2_of_geojson μ feats = 0
    ∧ merged_geom feats = none
    ∧ change_record ie ce (merged_geom feats) other = null_change
    ∧ change_record ie ce other (merged_geom feats) = null_change := by
  have hm : merged_geom feats = none := by
    simp [merged_geom, h]
  refine ⟨by simp [area_km2_of_geojson, h], hm, ?_, ?_⟩
  · rw [hm]
    cases other <;> simp [change_record, centroid_lonlat_of_change]
  · rw [hm]
    cases other <;> simp [change_record, centroid_lonlat_of_change]

/-! ## Claim theorems -/

/-- C2: for every geometry (including ones with malformed holes, reversed
ring winding, or holes larger than their outer ring, i.e. for every signed
ring-area collaborator `A` and every geometry structure), `geom_area_m2`
returns a value that is at least `0`, and the empty geometry yields exactly
`0`. -/
theorem area_nonneg_and_empty_zero (A : Ring → ℚ) (g : PyGeom) :
    0 ≤ geom_area_m2 A g ∧ geom_area_m2 A PyGeom.empty = 0 := by
  refine ⟨?_, rfl⟩
  cases g with
  | empty => exact le_refl 0
  | polygon exterior interiors => exact le_max_left 0 _
  | multiPolygon polys =>
    apply List.sum_nonneg
    intro x hx
    rw [List.mem_map] at hx
    obtain ⟨p, _, rfl⟩ := hx
    exact le_max_left 0 _
  | other => exact le_refl 0

/-- C3: `fmt` rounds to 1 decimal place when `|delta| ≥ 100` and to 2
decimal places otherwise, testing the threshold on the unrounded delta; in
particular `fmt 99.999 = 100.00` (2-decimal rounding) and
`fmt 150.456 = 150.5` (1-decimal rounding). -/
theorem fmt_rounding_policy (d : ℚ) :
    (100 ≤ |d| → fmt d = py_round d 1)
    ∧ (|d| < 100 → fmt d = py_round d 2)
    ∧ fmt (99999 / 1000) = 100
    ∧ fmt (150456 / 1000) = 1505 / 10 := by
  refine ⟨fun h => ?_, fun h => ?_,
    by norm_num [fmt, py_round, py_round_int, le_abs],
    by norm_num [fmt, py_round, py_round_int, le_abs]⟩
  · unfold fmt
    rw [if_pos h]
  · unfold fmt
    rw [if_neg (not_le.mpr h)]

/-- Witness for C3 at `d = 150.456`: the threshold hypothesis holds and the
theorem yields 1-decimal rounding there. -/
theorem fmt_rounding_policy_witness :
    100 ≤ |(150456 / 1000 : ℚ)| ∧ fmt (150456 / 1000) = py_round (150456 / 1000) 1 :=
  ⟨by norm_num [le_abs], (fmt_rounding_policy (150456 / 1000)).1 (by norm_num [le_abs])⟩

/-- C4: `side_from_delta` is an exhaustive three-way mapping: a positive
delta yields the gain label, a negative delta the recapture label, and a
zero delta the no-change label; the output is always one of the three
labels, and the labels are pairwise distinct, so exactly one applies. -/
theorem side_from_delta_trichotomy (d : ℚ) :
    (0 < d → side_from_delta d = "orosz területszerzés")
    ∧ (d < 0 → side_from_delta d = "ukrán visszafoglalás")
    ∧ (d = 0 → side_from_delta d = "nincs érdemi változás")
    ∧ (side_from_delta d = "orosz területszerzés"
        ∨ side_from_delta d = "ukrán visszafoglalás"
        ∨ side_from_delta d = "nincs érdemi változás")
    ∧ ("orosz területszerzés" ≠ "ukrán visszafoglalás"
        ∧ "orosz területszerzés" ≠ "nincs érdemi változás"
        ∧ "ukrán visszafoglalás" ≠ "nincs érdemi változás") := by
  refine ⟨fun h => ?_, fun h => ?_, fun h => ?_, ?_, by decide, by decide, by decide⟩
  · unfold side_from_delta
    rw [if_pos h]
  · unfold side_from_delta
    rw [if_neg (by linarith), if_pos h]
  · subst h
    rfl
  · unfold side_from_delta
    rcases lt_trichotomy 0 d with h | h | h
    · rw [if_pos h]
      exact Or.inl rfl
    · rw [if_neg (by linarith), if_neg (by linarith)]
      exact Or.inr (Or.inr rfl)
    · rw [if_neg (by linarith), if_pos h]
      exact Or.inr (Or.inl rfl)

/-- Witness for C4 at `d = 1`: positivity holds and the theorem yields the
gain label there. -/
theorem side_from_delta_trichotomy_witness :
    (0 : ℚ) < 1 ∧ side_from_delta 1 = "orosz területszerzés" :=
  ⟨by norm_num, (side_from_delta_trichotomy 1).1 (by norm_num)⟩

/-- C7: for all regions, the gained region and the lost region are
disjoint (their intersection is empty), and both are subsets of the union
of the current and previous regions. -/
theorem gained_lost_disjoint_and_subsets (t p : Region) :
    gained t p ∩ lost t p = ∅
    ∧ gained t p ⊆ t ∪ p
    ∧ lost t p ⊆ t ∪ p := by
  refine ⟨?_, ?_, ?_⟩
  · ext x
    simp only [gained, lost, Set.mem_inter_iff, Set.mem_diff, Set.mem_empty_iff_false,
      iff_false, not_and]
    tauto
  · exact Set.diff_subset.trans Set.subset_union_left
  · exact Set.diff_subset.trans Set.subset_union_right

/-- C8: the change-localization operations are symmetric under swapping the
two inputs: `gained A B` is the very same region as `lost B A`. -/
theorem gained_eq_lost_swapped (A B : Region) : gained A B = lost B A := rfl

/-- C5: features whose geometry is missing or fails to parse are skipped
without aborting the merge: the collected geometries are exactly the valid
ones, inserting a bad feature anywhere changes neither the merged region
nor the computed area, and a collection with at least one valid geometry
merges to the union of exactly its valid geometries. -/
theorem merge_skips_invalid_features (μ : Region → ℚ) (pre post : List Feature)
    (bad : Feature) (hbad : bad.geometry.bind shape = none) :
    (∀ feats : List Feature,
        collectGeoms feats = feats.filterMap (fun f => f.geometry.bind shape))
    ∧ merged_geom (pre ++ bad :: post) = merged_geom (pre ++ post)
    ∧ area_km2_of_geojson μ (pre ++ bad :: post) = area_km2_of_geojson μ (pre ++ post)
    ∧ ∀ feats : List Feature,
        feats.filterMap (fun f => f.geometry.bind shape) ≠ [] →
        merged_geom feats =
          some (unary_union (feats.filterMap (fun f => f.geometry.bind shape))) := by
  have hskip : collectGeoms (pre ++ bad :: post) = collectGeoms (pre ++ post) := by
    rw [collectGeoms_eq_filterMap, collectGeoms_eq_filterMap, List.filterMap_append,
      List.filterMap_append, List.filterMap_cons, hbad]
  refine ⟨collectGeoms_eq_filterMap, ?_, ?_, ?_⟩
  · simp only [merged_geom, hskip]
  · simp only [area_km2_of_geojson, hskip]
  · intro feats hne
    have hc : collectGeoms feats = feats.filterMap (fun f => f.geometry.bind shape) :=
      collectGeoms_eq_filterMap feats
    have hfalse : (feats.filterMap (fun f => f.geometry.bind shape)).isEmpty = false := by
      cases hcase : feats.filterMap (fun f => f.geometry.bind shape) with
      | nil => exact absurd hcase hne
      | cons a l => rfl
    simp only [merged_geom, hc, hfalse, Bool.false_eq_true, if_false]

/-- Witness for C5: a malformed feature inserted in front of one valid
feature is skipped and does not change the merged region. -/
theorem merge_skips_invalid_features_witness :
    (Feature.mk (some RawGeom.malformed)).geometry.bind shape = none
    ∧ merged_geom ([] ++ Feature.mk (some RawGeom.malformed) ::
        [Feature.mk (some (RawGeom.ok {((5 : ℚ), (5 : ℚ))}))]) =
      merged_geom ([] ++ [Feature.mk (some (RawGeom.ok {((5 : ℚ), (5 : ℚ))}))]) :=
  ⟨rfl,
    (merge_skips_invalid_features (fun _ => 0) []
      [Feature.mk (some (RawGeom.ok {((5 : ℚ), (5 : ℚ))}))]
      (Feature.mk (some RawGeom.malformed)) rfl).2.1⟩

/-- C9: merging a permuted feature collection and computing its area gives
the same result as merging the collection in its original order. -/
theorem merge_area_order_invariant (μ : Region → ℚ) (f1 f2 : List Feature)
    (h : f1.Perm f2) :
    area_km2_of_geojson μ f1 = area_km2_of_geojson μ f2 := by
  have hperm : (collectGeoms f1).Perm (collectGeoms f2) := by
    rw [collectGeoms_eq_filterMap, collectGeoms_eq_filterMap]
    exact h.filterMap _
  rcases eq_or_ne (collectGeoms f1) [] with h1 | h1
  · have h2 : collectGeoms f2 = [] := by
      rw [h1] at hperm
      exact List.perm_nil.mp hperm.symm
    simp [area_km2_of_geojson, h1, h2]
  · have h2 : collectGeoms f2 ≠ [] := by
      intro hh
      rw [hh] at hperm
      exact h1 (List.perm_nil.mp hperm)
    have hu : unary_union (collectGeoms f1) = unary_union (collectGeoms f2) :=
      unary_union_perm hperm
    have e1 : (collectGeoms f1).isEmpty = false := by
      cases hcase : collectGeoms f1 with
      | nil => exact absurd hcase h1
      | cons a l => rfl
    have e2 : (collectGeoms f2).isEmpty = false := by
      cases hcase : collectGeoms f2 with
      | nil => exact absurd hcase h2
      | cons a l => rfl
    simp only [area_km2_of_geojson, e1, e2, Bool.false_eq_true, if_false, hu]

/-- Witness for C9: swapping two concrete valid features leaves the area
unchanged. -/
theorem merge_area_order_invariant_witness :
    ([Feature.mk (some (RawGeom.ok {((0 : ℚ), (0 : ℚ))})),
      Feature.mk (some (RawGeom.ok {((1 : ℚ), (1 : ℚ))}))].Perm
      [Feature.mk (some (RawGeom.ok {((1 : ℚ), (1 : ℚ))})),
       Feature.mk (some (RawGeom.ok {((0 : ℚ), (0 : ℚ))}))])
    ∧ area_km2_of_geojson (fun _ => 0)
        [Feature.mk (some (RawGeom.ok {((0 : ℚ), (0 : ℚ))})),
         Feature.mk (some (RawGeom.ok {((1 : ℚ), (1 : ℚ))}))] =
      area_km2_of_geojson (fun _ => 0)
        [Feature.mk (some (RawGeom.ok {((1 : ℚ), (1 : ℚ))})),
         Feature.mk (some (RawGeom.ok {((0 : ℚ), (0 : ℚ))}))] :=
  ⟨List.Perm.swap _ _ _, merge_area_order_invariant (fun _ => 0) _ _ (List.Perm.swap _ _ _)⟩

/-- C6: a collection with zero valid geometries is not an error: its area
is exactly `0` and every change record computed from its merge, on either
side of the comparison, has both centroids absent. -/
theorem empty_collection_zero_area_null_centroids (μ : Region → ℚ)
    (ie : Region → Bool) (ce : Region → Option Pt) (feats : List Feature)
    (other : Option Region) (h : collectGeoms feats = []) :
    area_km2_of_geojson μ feats = 0
    ∧ (change_record ie ce (merged_geom feats) other).gained_centroid = none
    ∧ (change_record ie ce (merged_geom feats) other).lost_centroid = none
    ∧ (change_record ie ce other (merged_geom feats)).gained_centroid = none
    ∧ (change_record ie ce other (merged_geom feats)).lost_centroid = none := by
  obtain ⟨ha, hm, h1, h2⟩ := no_valid_geoms_results μ ie ce feats other h
  exact ⟨ha, by rw [h1]; rfl, by rw [h1]; rfl, by rw [h2]; rfl, by rw [h2]; rfl⟩

/-- Witness for C6: a collection whose only feature has no geometry field
yields area 0, via the theorem. -/
theorem empty_collection_zero_area_witness :
    collectGeoms [Feature.mk none] = []
    ∧ area_km2_of_geojson (fun _ => 0) [Feature.mk none] = 0 :=
  ⟨rfl,
    (empty_collection_zero_area_null_centroids (fun _ => 0) (fun _ => false)
      (fun _ => some ((7 : ℚ), (7 : ℚ))) [Feature.mk none]
      (some {((1 : ℚ), (2 : ℚ))}) rfl).1⟩

/-- C1 counterexample: with a current snapshot of zero valid geometries and
a non-empty previous region, the emitted change record is all-null: the
lost centroid is `none` even though the centroid collaborator would return
a point for every region, whereas treating the empty snapshot as the
canonical empty region would have produced that point. -/
theorem empty_current_loss_not_reported :
    (((30 : ℚ), (48 : ℚ)) ∈ ({((30 : ℚ), (48 : ℚ))} : Region))
    ∧ merged_geom [Feature.mk (some RawGeom.malformed)] = none
    ∧ (change_record (fun _ => false) (fun _ => some ((30 : ℚ), (48 : ℚ)))
        (merged_geom [Feature.mk (some RawGeom.malformed)])
        (some ({((30 : ℚ), (48 : ℚ))} : Region))).lost_centroid = none
    ∧ (change_record (fun _ => false) (fun _ => some ((30 : ℚ), (48 : ℚ)))
        (some (∅ : Region))
        (some ({((30 : ℚ), (48 : ℚ))} : Region))).lost_centroid =
      some (py_round 30 5, py_round 48 5) :=
  ⟨rfl, rfl, rfl, rfl⟩

/-- C1 amended: a snapshot yielding zero valid geometries makes
`merged_geom` return `none` rather than a canonical empty region, and the
change record against any previous region (non-empty included) degrades to
the all-null record, so the loss is not reported. -/
theorem empty_current_degrades_to_all_null (ie : Region → Bool)
    (ce : Region → Option Pt) (feats : List Feature) (prev : Option Region)
    (h : collectGeoms feats = []) :
    merged_geom feats = none
    ∧ change_record ie ce (merged_geom feats) prev = null_change := by
  obtain ⟨-, hm, h1, -⟩ := no_valid_geoms_results (fun _ => 0) ie ce feats prev h
  exact ⟨hm, h1⟩

/-- Witness for C1 amended: a concrete all-malformed snapshot against a
concrete non-empty previous region. -/
theorem empty_current_degrades_witness :
    collectGeoms [Feature.mk (some RawGeom.malformed)] = []
    ∧ merged_geom [Feature.mk (some RawGeom.malformed)] = none
    ∧ change_record (fun _ => false) (fun _ => some ((30 : ℚ), (48 : ℚ)))
        (merged_geom [Feature.mk (some RawGeom.malformed)])
        (some ({((30 : ℚ), (48 : ℚ))} : Region)) = null_change :=
  ⟨rfl,
    (empty_current_degrades_to_all_null (fun _ => false)
      (fun _ => some ((30 : ℚ), (48 : ℚ))) [Feature.mk (some RawGeom.malformed)]
      (some ({((30 : ℚ), (48 : ℚ))} : Region)) rfl).1,
    (empty_current_degrades_to_all_null (fun _ => false)
      (fun _ => some ((30 : ℚ), (48 : ℚ))) [Feature.mk (some RawGeom.malformed)]
      (some ({((30 : ℚ), (48 : ℚ))} : Region)) rfl).2⟩

/-- C10: for a chronological dates list of length `n ≥ 2`, the run passes
the length check and the weekly comparison index is `max 0 (n - 8)`; when
`n ≤ 8` it clamps to the earliest snapshot (index 0), and the index is
always in range. -/
theorem weekly_comparison_index (dates : List DateEntry) (h : 2 ≤ dates.length) :
    main_indices dates =
      .ok ((dates.length : ℤ) - 1, (dates.length : ℤ) - 2,
        max 0 ((dates.length : ℤ) - 8))
    ∧ (dates.length ≤ 8 → max 0 ((dates.length : ℤ) - 8) = 0)
    ∧ (max 0 ((dates.length : ℤ) - 8)).toNat < dates.length := by
  refine ⟨?_, fun h8 => ?_, ?_⟩
  · have hlt : ¬ dates.length < 2 := by omega
    have harith : (dates.length : ℤ) - 1 - 7 = (dates.length : ℤ) - 8 := by ring
    simp only [main_indices, if_neg hlt, harith]
  · rw [max_eq_left (by omega : (dates.length : ℤ) - 8 ≤ 0)]
  · rcases max_cases (0 : ℤ) ((dates.length : ℤ) - 8) with ⟨heq, _⟩ | ⟨heq, _⟩ <;>
      rw [heq] <;> omega

/-- Witness for C10: a three-entry dates list passes the check and clamps
its weekly comparison to the earliest snapshot. -/
theorem weekly_comparison_index_witness :
    2 ≤ ([⟨"2024-01-01", "a"⟩, ⟨"2024-01-02", "b"⟩, ⟨"2024-01-03", "c"⟩] :
        List DateEntry).length
    ∧ main_indices [⟨"2024-01-01", "a"⟩, ⟨"2024-01-02", "b"⟩, ⟨"2024-01-03", "c"⟩] =
      .ok ((([⟨"2024-01-01", "a"⟩, ⟨"2024-01-02", "b"⟩, ⟨"2024-01-03", "c"⟩] :
          List DateEntry).length : ℤ) - 1,
        (([⟨"2024-01-01", "a"⟩, ⟨"2024-01-02", "b"⟩, ⟨"2024-01-03", "c"⟩] :
          List DateEntry).length : ℤ) - 2,
        max 0 ((([⟨"2024-01-01", "a"⟩, ⟨"2024-01-02", "b"⟩, ⟨"2024-01-03", "c"⟩] :
          List DateEntry).length : ℤ) - 8)) :=
  ⟨by simp,
    (weekly_comparison_index
      [⟨"2024-01-01", "a"⟩, ⟨"2024-01-02", "b"⟩, ⟨"2024-01-03", "c"⟩] (by simp)).1⟩

end DeepState
